import Mathlib

/-!
Shallow embedding of the OBRAX QUANTUM Sprint-0 backend (`api_sprint0.py`).

The two stateful request handlers, `confirm_pcc` (`POST /pcc/confirm`) and
`inspect_fvs` (`POST /fvs/inspect`), are modelled as pure functions from a
request payload, the current wall-clock instant, and a database snapshot to
either an `HTTPException` (FastAPI's error path: nothing is committed) or a
new database snapshot plus the JSON response.  Timestamps
(`datetime.utcnow()`) are abstracted as a `Nat` supplied per request; the
autoincrement primary key that `db.flush()` assigns to the new `EventFVS`
row is modelled by the `fvs_seq` counter of the snapshot.  A Python
`ValueError` escaping a handler would surface as a server error, modelled
here as an `HTTPException` with status code 500.

The ORM model classes and enums come from the project's `models` module
(imported by `api_sprint0.py` but not part of the staged sources); their
fields and members are reconstructed from their uses in `api_sprint0.py`
and from the spec's state list
(`PCC_REQUIRED, PCC_CONFIRMED, READY, INSPECTION_PENDING, INSPECTED_PASS,
INSPECTED_FAIL`, plus `PLANNED` used by `database.py`).
-/

namespace Obrax

/-- Activity workflow states, from the spec's state machine plus `PLANNED`
(used by the seed in `database.py`). -/
inductive ActivityStatus where
  | PLANNED
  | READY
  | PCC_REQUIRED
  | PCC_CONFIRMED
  | INSPECTION_PENDING
  | INSPECTED_PASS
  | INSPECTED_FAIL
  deriving DecidableEq, Repr

/-- Rendering of a status inside an f-string / response payload
(`task.status` interpolated, `task.status.value`). -/
def ActivityStatus.str : ActivityStatus → String
  | .PLANNED => "PLANNED"
  | .READY => "READY"
  | .PCC_REQUIRED => "PCC_REQUIRED"
  | .PCC_CONFIRMED => "PCC_CONFIRMED"
  | .INSPECTION_PENDING => "INSPECTION_PENDING"
  | .INSPECTED_PASS => "INSPECTED_PASS"
  | .INSPECTED_FAIL => "INSPECTED_FAIL"

/-- FVS inspection outcome (`FVSStatus.PASS` / `FVSStatus.FAIL`). -/
inductive FVSStatus where
  | PASS
  | FAIL
  deriving DecidableEq, Repr

/-- Origin of a non-conformity (`NCOrigin.FVS` is the only one used). -/
inductive NCOrigin where
  | FVS
  deriving DecidableEq, Repr

/-- Non-conformity lifecycle status (`NCStatus.ABERTA` is the only one used
by the handlers). -/
inductive NCStatus where
  | ABERTA
  deriving DecidableEq, Repr

/-- An `Activity` row: id, parent work id, name, status, responsible user,
timestamps. -/
structure Activity where
  id : Nat
  work_id : Nat
  name : String
  status : ActivityStatus
  responsible_user : String
  created_at : Nat
  updated_at : Nat
  deriving DecidableEq, Repr

/-- Request body of `POST /pcc/confirm` (`EventPCCCreate`): the fields the
handler reads. -/
structure EventPCCCreate where
  obra_id : Nat
  atividade_id : Nat
  equipe_id : Nat
  task_id : Nat
  deriving DecidableEq, Repr

/-- An `EventPCC` row, with the fields `confirm_pcc` populates. -/
structure EventPCC where
  obra_id : Nat
  atividade_id : Nat
  equipe_id : Nat
  task_id : Nat
  requested_at : Nat
  confirmed_at : Nat
  confirmed_flag : Nat
  executor_id : Nat
  deriving DecidableEq, Repr

/-- Request body of `POST /fvs/inspect` (`EventFVSCreate`): the fields the
handler reads. -/
structure EventFVSCreate where
  obra_id : Nat
  service_id : Nat
  task_id : Nat
  status : FVSStatus
  observations : Option String
  deriving DecidableEq, Repr

/-- An `EventFVS` row, with the fields `inspect_fvs` populates; `id` is the
primary key `db.flush()` assigns. -/
structure EventFVS where
  id : Nat
  obra_id : Nat
  service_id : Nat
  task_id : Nat
  executor_id : Nat
  inspected_at : Nat
  status : FVSStatus
  rework_count : Nat
  observations : Option String
  deriving DecidableEq, Repr

/-- An `EventNC` row, with the fields `inspect_fvs` populates. -/
structure EventNC where
  obra_id : Nat
  service_id : Nat
  task_id : Nat
  fvs_id : Nat
  origin : NCOrigin
  status : NCStatus
  description : String
  deriving DecidableEq, Repr

/-- The database snapshot the two handlers touch: the `activities` table and
the three event tables, in insertion order, plus the autoincrement counter
for `EventFVS.id`. -/
structure DB where
  activities : List Activity
  pcc_events : List EventPCC
  fvs_events : List EventFVS
  nc_events : List EventNC
  fvs_seq : Nat
  deriving DecidableEq, Repr

/-- FastAPI's `HTTPException(status_code, detail)`. -/
structure HTTPException where
  status_code : Nat
  detail : String
  deriving DecidableEq, Repr

/-- `get_next_status_after_pcc`: raises `ValueError` (modelled as `.error`)
unless the current status is `PCC_REQUIRED`. -/
def get_next_status_after_pcc (current_status : ActivityStatus) :
    Except String ActivityStatus :=
  if current_status ≠ ActivityStatus.PCC_REQUIRED then
    .error ("Cannot confirm PCC from state: " ++ current_status.str)
  else
    .ok ActivityStatus.PCC_CONFIRMED

/-- `get_next_status_after_fvs`: raises `ValueError` (modelled as `.error`)
unless the current status is `INSPECTION_PENDING`; branches on the
inspection result. -/
def get_next_status_after_fvs (current_status : ActivityStatus)
    (fvs_result : FVSStatus) : Except String ActivityStatus :=
  if current_status ≠ ActivityStatus.INSPECTION_PENDING then
    .error ("Cannot inspect FVS from state: " ++ current_status.str)
  else
    .ok (if fvs_result = FVSStatus.PASS then ActivityStatus.INSPECTED_PASS
         else ActivityStatus.INSPECTED_FAIL)

/-- In-place mutation of the first row matching a predicate, as the ORM does
when the object returned by `.filter(...).first()` is mutated: every other
row is untouched. -/
def updateFirst (p : α → Bool) (f : α → α) : List α → List α
  | [] => []
  | a :: as => if p a then f a :: as else a :: updateFirst p f as

/-- JSON body returned by a successful `confirm_pcc`. -/
structure ConfirmPCCResponse where
  success : Bool
  pcc_event : EventPCC
  new_status : String
  deriving DecidableEq, Repr

/-- JSON body returned by a successful `inspect_fvs`. -/
structure InspectFVSResponse where
  success : Bool
  fvs_event : EventFVS
  nc_event : Option EventNC
  new_status : String
  deriving DecidableEq, Repr

/-- `POST /pcc/confirm`: look up the Activity by `task_id` (404 when
absent), check the `PCC_REQUIRED` precondition (400 otherwise), insert one
`EventPCC` row, advance the status via `get_next_status_after_pcc` (a
`ValueError` escaping would be a 500), stamp `updated_at`, and commit
everything atomically. -/
def confirm_pcc (event : EventPCCCreate) (now : Nat) (db : DB) :
    Except HTTPException (DB × ConfirmPCCResponse) :=
  match db.activities.find? (fun a => a.id == event.task_id) with
  | none => .error ⟨404, "Task not found"⟩
  | some task =>
    if task.status ≠ ActivityStatus.PCC_REQUIRED then
      .error ⟨400, "Cannot confirm PCC from state: " ++ task.status.str⟩
    else
      let pcc_event : EventPCC :=
        { obra_id := event.obra_id
          atividade_id := event.atividade_id
          equipe_id := event.equipe_id
          task_id := event.task_id
          requested_at := now
          confirmed_at := now
          confirmed_flag := 1
          executor_id := 1 }
      match get_next_status_after_pcc task.status with
      | .error msg => .error ⟨500, msg⟩
      | .ok next =>
        let db' : DB :=
          { db with
            pcc_events := db.pcc_events ++ [pcc_event]
            activities := updateFirst (fun a => a.id == event.task_id)
              (fun a => { a with status := next, updated_at := now })
              db.activities }
        .ok (db', { success := true, pcc_event := pcc_event,
                    new_status := next.str })

/-- `POST /fvs/inspect`: look up the Activity by `task_id` (404 when
absent), check the `INSPECTION_PENDING` precondition (400 otherwise),
insert one `EventFVS` row (its `id` assigned at `db.flush()`), on `FAIL`
also insert one `EventNC` row referencing it, advance the status via
`get_next_status_after_fvs` (a `ValueError` escaping would be a 500), stamp
`updated_at`, and commit everything atomically. -/
def inspect_fvs (event : EventFVSCreate) (now : Nat) (db : DB) :
    Except HTTPException (DB × InspectFVSResponse) :=
  match db.activities.find? (fun a => a.id == event.task_id) with
  | none => .error ⟨404, "Task not found"⟩
  | some task =>
    if task.status ≠ ActivityStatus.INSPECTION_PENDING then
      .error ⟨400, "Cannot inspect FVS from state: " ++ task.status.str⟩
    else
      let fvs_event : EventFVS :=
        { id := db.fvs_seq + 1
          obra_id := event.obra_id
          service_id := event.service_id
          task_id := event.task_id
          executor_id := 1
          inspected_at := now
          status := event.status
          rework_count := 0
          observations := event.observations }
      let nc_event : Option EventNC :=
        if event.status = FVSStatus.FAIL then
          some { obra_id := event.obra_id
                 service_id := event.service_id
                 task_id := event.task_id
                 fvs_id := fvs_event.id
                 origin := NCOrigin.FVS
                 status := NCStatus.ABERTA
                 description := "NC automática criada por FVS FAIL. " ++
                   event.observations.getD "" }
        else none
      match get_next_status_after_fvs task.status event.status with
      | .error msg => .error ⟨500, msg⟩
      | .ok next =>
        let db' : DB :=
          { db with
            fvs_seq := db.fvs_seq + 1
            fvs_events := db.fvs_events ++ [fvs_event]
            nc_events := db.nc_events ++ nc_event.toList
            activities := updateFirst (fun a => a.id == event.task_id)
              (fun a => { a with status := next, updated_at := now })
              db.activities }
        .ok (db', { success := true, fvs_event := fvs_event,
                    nc_event := nc_event, new_status := next.str })

/-- The `EventPCC` row `confirm_pcc` builds from a payload at instant
`now` (a name for the literal inside `confirm_pcc`, used in statements). -/
def pccRecord (event : EventPCCCreate) (now : Nat) : EventPCC :=
  { obra_id := event.obra_id
    atividade_id := event.atividade_id
    equipe_id := event.equipe_id
    task_id := event.task_id
    requested_at := now
    confirmed_at := now
    confirmed_flag := 1
    executor_id := 1 }

/-- The `EventFVS` row `inspect_fvs` builds from a payload at instant `now`
when the snapshot's counter is `seq` (a name for the literal inside
`inspect_fvs`, used in statements). -/
def fvsRecord (event : EventFVSCreate) (now : Nat) (seq : Nat) : EventFVS :=
  { id := seq + 1
    obra_id := event.obra_id
    service_id := event.service_id
    task_id := event.task_id
    executor_id := 1
    inspected_at := now
    status := event.status
    rework_count := 0
    observations := event.observations }

/-- The `EventNC` row `inspect_fvs` builds on `FAIL` (a name for the literal
inside `inspect_fvs`, used in statements). -/
def ncRecord (event : EventFVSCreate) (seq : Nat) : EventNC :=
  { obra_id := event.obra_id
    service_id := event.service_id
    task_id := event.task_id
    fvs_id := seq + 1
    origin := NCOrigin.FVS
    status := NCStatus.ABERTA
    description := "NC automática criada por FVS FAIL. " ++
      event.observations.getD "" }

/-! ### Helper lemmas about `updateFirst` -/

theorem updateFirst_length (p : α → Bool) (f : α → α) (l : List α) :
    (updateFirst p f l).length = l.length := by
  induction l with
  | nil => rfl
  | cons x xs ih =>
    by_cases hx : p x = true
    · simp [updateFirst, hx]
    · have hx' : p x = false := eq_false_of_ne_true hx
      simp [updateFirst, hx', ih]

theorem find?_updateFirst (p : α → Bool) (f : α → α) (l : List α) (a : α)
    (hf : p (f a) = true) (h : l.find? p = some a) :
    (updateFirst p f l).find? p = some (f a) := by
  induction l with
  | nil => simp [List.find?] at h
  | cons x xs ih =>
    by_cases hx : p x = true
    · rw [List.find?_cons_of_pos _ hx] at h
      injection h with h
      subst h
      simp [updateFirst, hx, List.find?_cons_of_pos _ hf]
    · have hx' : p x = false := eq_false_of_ne_true hx
      rw [List.find?_cons_of_neg _ hx] at h
      simpa [updateFirst, hx', List.find?_cons_of_neg _ hx] using ih h

theorem updateFirst_getElem (p : α → Bool) (f : α → α) (l : List α) (i : Nat)
    (h : i < l.length) (h' : i < (updateFirst p f l).length) :
    (updateFirst p f l)[i] = l[i] ∨
      ((updateFirst p f l)[i] = f l[i] ∧ p l[i] = true) := by
  induction l generalizing i with
  | nil => simp at h
  | cons x xs ih =>
    by_cases hx : p x = true
    · cases i with
      | zero => right; simp [updateFirst, hx]
      | succ j => left; simp [updateFirst, hx]
    · have hx' : p x = false := eq_false_of_ne_true hx
      cases i with
      | zero => left; simp [updateFirst, hx']
      | succ j =>
        have hj : j < xs.length := by simpa using h
        have hj' : j < (updateFirst p f xs).length := by
          rw [updateFirst_length]; exact hj
        have := ih j hj hj'
        simpa [updateFirst, hx'] using this

/-! ### Inversion lemmas for the success paths of the two handlers -/

theorem confirm_pcc_ok_inv (ev : EventPCCCreate) (now : Nat) (db db' : DB)
    (r : ConfirmPCCResponse) (h : confirm_pcc ev now db = .ok (db', r)) :
    ∃ task, db.activities.find? (fun a => a.id == ev.task_id) = some task ∧
      task.status = ActivityStatus.PCC_REQUIRED ∧
      db' = { db with
        pcc_events := db.pcc_events ++ [pccRecord ev now]
        activities := updateFirst (fun a => a.id == ev.task_id)
          (fun a => { a with status := ActivityStatus.PCC_CONFIRMED,
                             updated_at := now })
          db.activities } ∧
      r = { success := true, pcc_event := pccRecord ev now,
            new_status := "PCC_CONFIRMED" } := by
  unfold confirm_pcc at h
  split at h
  · exact absurd h (by simp)
  · rename_i task hf
    split at h
    · exact absurd h (by simp)
    · rename_i hs'
      have hs : task.status = ActivityStatus.PCC_REQUIRED := not_not.mp hs'
      rw [hs] at h
      simp only [get_next_status_after_pcc, ne_eq, reduceIte] at h
      injection h with h
      injection h with hdb hr
      subst hdb
      subst hr
      exact ⟨task, hf, hs, rfl, rfl⟩

theorem inspect_fvs_ok_inv (ev : EventFVSCreate) (now : Nat) (db db' : DB)
    (r : InspectFVSResponse) (h : inspect_fvs ev now db = .ok (db', r)) :
    ∃ task, db.activities.find? (fun a => a.id == ev.task_id) = some task ∧
      task.status = ActivityStatus.INSPECTION_PENDING ∧
      db' = { db with
        fvs_seq := db.fvs_seq + 1
        fvs_events := db.fvs_events ++ [fvsRecord ev now db.fvs_seq]
        nc_events := db.nc_events ++
          (if ev.status = FVSStatus.FAIL then [ncRecord ev db.fvs_seq] else [])
        activities := updateFirst (fun a => a.id == ev.task_id)
          (fun a => { a with
            status := if ev.status = FVSStatus.PASS then
                ActivityStatus.INSPECTED_PASS
              else ActivityStatus.INSPECTED_FAIL,
            updated_at := now })
          db.activities } ∧
      r = { success := true, fvs_event := fvsRecord ev now db.fvs_seq,
            nc_event := if ev.status = FVSStatus.FAIL then
                some (ncRecord ev db.fvs_seq)
              else none,
            new_status := (if ev.status = FVSStatus.PASS then
                ActivityStatus.INSPECTED_PASS
              else ActivityStatus.INSPECTED_FAIL).str } := by
  unfold inspect_fvs at h
  split at h
  · exact absurd h (by simp)
  · rename_i task hf
    split at h
    · exact absurd h (by simp)
    · rename_i hs'
      have hs : task.status = ActivityStatus.INSPECTION_PENDING :=
        not_not.mp hs'
      cases hc : ev.status with
      | PASS =>
        rw [hs, hc] at h
        simp only [get_next_status_after_fvs, ne_eq, reduceIte,
          Option.toList] at h
        injection h with h
        injection h with hdb hr
        subst hdb
        subst hr
        refine ⟨task, hf, hs, ?_, ?_⟩ <;>
          simp [fvsRecord, ncRecord, hc, ActivityStatus.str]
      | FAIL =>
        rw [hs, hc] at h
        simp only [get_next_status_after_fvs, ne_eq, reduceIte,
          Option.toList] at h
        injection h with h
        injection h with hdb hr
        subst hdb
        subst hr
        refine ⟨task, hf, hs, ?_, ?_⟩ <;>
          simp [fvsRecord, ncRecord, hc, ActivityStatus.str]

/-! ### Forward evaluation of the success paths -/

theorem confirm_pcc_eq_of_found (ev : EventPCCCreate) (now : Nat) (db : DB)
    (task : Activity)
    (hfind : db.activities.find? (fun a => a.id == ev.task_id) = some task)
    (hst : task.status = ActivityStatus.PCC_REQUIRED) :
    confirm_pcc ev now db = .ok
      ({ db with
         pcc_events := db.pcc_events ++ [pccRecord ev now]
         activities := updateFirst (fun a => a.id == ev.task_id)
           (fun a => { a with status := ActivityStatus.PCC_CONFIRMED,
                              updated_at := now })
           db.activities },
       { success := true, pcc_event := pccRecord ev now,
         new_status := "PCC_CONFIRMED" }) := by
  unfold confirm_pcc
  rw [hfind]
  simp [hst, get_next_status_after_pcc, pccRecord, ActivityStatus.str]

theorem inspect_fvs_eq_of_found (ev : EventFVSCreate) (now : Nat) (db : DB)
    (task : Activity)
    (hfind : db.activities.find? (fun a => a.id == ev.task_id) = some task)
    (hst : task.status = ActivityStatus.INSPECTION_PENDING) :
    inspect_fvs ev now db = .ok
      ({ db with
         fvs_seq := db.fvs_seq + 1
         fvs_events := db.fvs_events ++ [fvsRecord ev now db.fvs_seq]
         nc_events := db.nc_events ++
           (if ev.status = FVSStatus.FAIL then [ncRecord ev db.fvs_seq]
            else [])
         activities := updateFirst (fun a => a.id == ev.task_id)
           (fun a => { a with
             status := if ev.status = FVSStatus.PASS then
                 ActivityStatus.INSPECTED_PASS
               else ActivityStatus.INSPECTED_FAIL,
             updated_at := now })
           db.activities },
       { success := true
         fvs_event := fvsRecord ev now db.fvs_seq
         nc_event := if ev.status = FVSStatus.FAIL then
             some (ncRecord ev db.fvs_seq)
           else none
         new_status := (if ev.status = FVSStatus.PASS then
             ActivityStatus.INSPECTED_PASS
           else ActivityStatus.INSPECTED_FAIL).str }) := by
  unfold inspect_fvs
  rw [hfind]
  cases hc : ev.status <;>
    simp [hst, hc, get_next_status_after_fvs, fvsRecord, ncRecord,
      ActivityStatus.str]

/-! ### Concrete fixtures used by the witness theorems -/

/-- A seeded Activity awaiting PCC confirmation (mirrors the `/dev/seed`
demo rows). -/
def taskP : Activity :=
  { id := 1, work_id := 10, name := "Instalar contramarco",
    status := ActivityStatus.PCC_REQUIRED, responsible_user := "Marcelo",
    created_at := 0, updated_at := 0 }

/-- A seeded Activity awaiting FVS inspection. -/
def taskI : Activity :=
  { id := 2, work_id := 10, name := "FVS Porta corta-fogo",
    status := ActivityStatus.INSPECTION_PENDING,
    responsible_user := "Marcelo", created_at := 0, updated_at := 0 }

/-- A seeded Activity in `READY`, matching neither handler's precondition. -/
def taskR : Activity :=
  { id := 3, work_id := 10, name := "Aplicar manta acústica",
    status := ActivityStatus.READY, responsible_user := "Nicolas",
    created_at := 0, updated_at := 0 }

/-- A concrete snapshot with the three seeded Activities and empty event
tables. -/
def db0 : DB := { activities := [taskP, taskI, taskR], pcc_events := [],
                  fvs_events := [], nc_events := [], fvs_seq := 0 }

/-- A concrete `/pcc/confirm` payload aimed at `taskP`. -/
def evP : EventPCCCreate :=
  { obra_id := 10, atividade_id := 1, equipe_id := 4, task_id := 1 }

/-- A concrete failing `/fvs/inspect` payload aimed at `taskI`. -/
def evFail : EventFVSCreate :=
  { obra_id := 10, service_id := 6, task_id := 2,
    status := FVSStatus.FAIL, observations := some "trinca no batente" }

/-- A concrete passing `/fvs/inspect` payload aimed at `taskI`. -/
def evPass : EventFVSCreate :=
  { obra_id := 10, service_id := 6, task_id := 2,
    status := FVSStatus.PASS, observations := none }

/-! ### The claims -/

/-- C1: for every Activity whose status is `PCC_REQUIRED`, `confirm_pcc`
succeeds, appends exactly one `EventPCC` row, and moves the Activity to
`PCC_CONFIRMED` (and to no other status). -/
theorem c1_confirm_pcc_success (ev : EventPCCCreate) (now : Nat) (db : DB)
    (task : Activity)
    (hfind : db.activities.find? (fun a => a.id == ev.task_id) = some task)
    (hst : task.status = ActivityStatus.PCC_REQUIRED) :
    ∃ db' r, confirm_pcc ev now db = .ok (db', r) ∧
      db'.pcc_events = db.pcc_events ++ [pccRecord ev now] ∧
      db'.activities.find? (fun a => a.id == ev.task_id) =
        some { task with status := ActivityStatus.PCC_CONFIRMED,
                         updated_at := now } ∧
      r.new_status = "PCC_CONFIRMED" := by
  refine ⟨_, _, confirm_pcc_eq_of_found ev now db task hfind hst, rfl, ?_,
    rfl⟩
  exact find?_updateFirst (fun a => a.id == ev.task_id)
    (fun a => { a with status := ActivityStatus.PCC_CONFIRMED,
                       updated_at := now })
    db.activities task (by simpa using List.find?_some hfind) hfind

/-- C1 witness: the success case evaluated on the seeded snapshot. -/
theorem c1_confirm_pcc_success_witness :
    ∃ db' r, confirm_pcc evP 5 db0 = .ok (db', r) ∧
      db'.pcc_events = db0.pcc_events ++ [pccRecord evP 5] ∧
      db'.activities.find? (fun a => a.id == evP.task_id) =
        some { taskP with status := ActivityStatus.PCC_CONFIRMED,
                          updated_at := 5 } ∧
      r.new_status = "PCC_CONFIRMED" :=
  c1_confirm_pcc_success evP 5 db0 taskP rfl rfl

/-- C2: for every Activity in `INSPECTION_PENDING`, a `FAIL` inspection
appends exactly one `EventFVS` row and exactly one `EventNC` row; the NC
references the originating FVS event through `fvs_id`, is open (`ABERTA`),
and the Activity moves to `INSPECTED_FAIL`. -/
theorem c2_inspect_fvs_fail (ev : EventFVSCreate) (now : Nat) (db : DB)
    (task : Activity)
    (hfind : db.activities.find? (fun a => a.id == ev.task_id) = some task)
    (hst : task.status = ActivityStatus.INSPECTION_PENDING)
    (hres : ev.status = FVSStatus.FAIL) :
    ∃ db' r, inspect_fvs ev now db = .ok (db', r) ∧
      db'.fvs_events = db.fvs_events ++ [fvsRecord ev now db.fvs_seq] ∧
      db'.nc_events = db.nc_events ++ [ncRecord ev db.fvs_seq] ∧
      (ncRecord ev db.fvs_seq).fvs_id = (fvsRecord ev now db.fvs_seq).id ∧
      (ncRecord ev db.fvs_seq).status = NCStatus.ABERTA ∧
      db'.activities.find? (fun a => a.id == ev.task_id) =
        some { task with status := ActivityStatus.INSPECTED_FAIL,
                         updated_at := now } := by
  have key := inspect_fvs_eq_of_found ev now db task hfind hst
  rw [hres] at key
  simp only [reduceIte] at key
  refine ⟨_, _, key, rfl, rfl, rfl, rfl, ?_⟩
  exact find?_updateFirst (fun a => a.id == ev.task_id)
    (fun a => { a with status := ActivityStatus.INSPECTED_FAIL,
                       updated_at := now })
    db.activities task (by simpa using List.find?_some hfind) hfind

/-- C2 witness: a failing inspection evaluated on the seeded snapshot. -/
theorem c2_inspect_fvs_fail_witness :
    ∃ db' r, inspect_fvs evFail 6 db0 = .ok (db', r) ∧
      db'.fvs_events = db0.fvs_events ++ [fvsRecord evFail 6 db0.fvs_seq] ∧
      db'.nc_events = db0.nc_events ++ [ncRecord evFail db0.fvs_seq] ∧
      (ncRecord evFail db0.fvs_seq).fvs_id =
        (fvsRecord evFail 6 db0.fvs_seq).id ∧
      (ncRecord evFail db0.fvs_seq).status = NCStatus.ABERTA ∧
      db'.activities.find? (fun a => a.id == evFail.task_id) =
        some { taskI with status := ActivityStatus.INSPECTED_FAIL,
                          updated_at := 6 } :=
  c2_inspect_fvs_fail evFail 6 db0 taskI rfl rfl rfl

/-- C3: for every Activity in `INSPECTION_PENDING`, a `PASS` inspection
appends exactly one `EventFVS` row, leaves the NC table unchanged, and
moves the Activity to `INSPECTED_PASS`. -/
theorem c3_inspect_fvs_pass (ev : EventFVSCreate) (now : Nat) (db : DB)
    (task : Activity)
    (hfind : db.activities.find? (fun a => a.id == ev.task_id) = some task)
    (hst : task.status = ActivityStatus.INSPECTION_PENDING)
    (hres : ev.status = FVSStatus.PASS) :
    ∃ db' r, inspect_fvs ev now db = .ok (db', r) ∧
      db'.fvs_events = db.fvs_events ++ [fvsRecord ev now db.fvs_seq] ∧
      db'.nc_events = db.nc_events ∧
      r.nc_event = none ∧
      db'.activities.find? (fun a => a.id == ev.task_id) =
        some { task with status := ActivityStatus.INSPECTED_PASS,
                         updated_at := now } := by
  have key := inspect_fvs_eq_of_found ev now db task hfind hst
  rw [hres] at key
  simp only [reduceIte] at key
  refine ⟨_, _, key, rfl, by simp, rfl, ?_⟩
  exact find?_updateFirst (fun a => a.id == ev.task_id)
    (fun a => { a with status := ActivityStatus.INSPECTED_PASS,
                       updated_at := now })
    db.activities task (by simpa using List.find?_some hfind) hfind

/-- C3 witness: a passing inspection evaluated on the seeded snapshot. -/
theorem c3_inspect_fvs_pass_witness :
    ∃ db' r, inspect_fvs evPass 6 db0 = .ok (db', r) ∧
      db'.fvs_events = db0.fvs_events ++ [fvsRecord evPass 6 db0.fvs_seq] ∧
      db'.nc_events = db0.nc_events ∧
      r.nc_event = none ∧
      db'.activities.find? (fun a => a.id == evPass.task_id) =
        some { taskI with status := ActivityStatus.INSPECTED_PASS,
                          updated_at := 6 } :=
  c3_inspect_fvs_pass evPass 6 db0 taskI rfl rfl rfl

/-! ### Forward evaluation of the error paths -/

theorem confirm_pcc_eq_of_not_found (ev : EventPCCCreate) (now : Nat)
    (db : DB)
    (hfind : db.activities.find? (fun a => a.id == ev.task_id) = none) :
    confirm_pcc ev now db = .error ⟨404, "Task not found"⟩ := by
  unfold confirm_pcc
  rw [hfind]

theorem inspect_fvs_eq_of_not_found (ev : EventFVSCreate) (now : Nat)
    (db : DB)
    (hfind : db.activities.find? (fun a => a.id == ev.task_id) = none) :
    inspect_fvs ev now db = .error ⟨404, "Task not found"⟩ := by
  unfold inspect_fvs
  rw [hfind]

theorem confirm_pcc_eq_of_bad_state (ev : EventPCCCreate) (now : Nat)
    (db : DB) (task : Activity)
    (hfind : db.activities.find? (fun a => a.id == ev.task_id) = some task)
    (hst : task.status ≠ ActivityStatus.PCC_REQUIRED) :
    confirm_pcc ev now db =
      .error ⟨400, "Cannot confirm PCC from state: " ++ task.status.str⟩ := by
  unfold confirm_pcc
  rw [hfind]
  simp [hst]

theorem inspect_fvs_eq_of_bad_state (ev : EventFVSCreate) (now : Nat)
    (db : DB) (task : Activity)
    (hfind : db.activities.find? (fun a => a.id == ev.task_id) = some task)
    (hst : task.status ≠ ActivityStatus.INSPECTION_PENDING) :
    inspect_fvs ev now db =
      .error ⟨400, "Cannot inspect FVS from state: " ++ task.status.str⟩ := by
  unfold inspect_fvs
  rw [hfind]
  simp [hst]

/-- A concrete `/pcc/confirm` payload aimed at `taskR` (state `READY`). -/
def evR : EventPCCCreate :=
  { obra_id := 10, atividade_id := 3, equipe_id := 4, task_id := 3 }

/-- A concrete `/fvs/inspect` payload aimed at `taskR` (state `READY`). -/
def evFR : EventFVSCreate :=
  { obra_id := 10, service_id := 6, task_id := 3,
    status := FVSStatus.PASS, observations := none }

/-- C4: on a precondition violation (current status is not the event's
required predecessor) each handler raises HTTP 400 before any write; in
this pure model the error carries no new snapshot, so nothing is persisted:
the caller keeps `db` exactly as it was. -/
theorem c4_precondition_violation_400 (evp : EventPCCCreate)
    (evf : EventFVSCreate) (nowp nowf : Nat) (dbp dbf : DB)
    (t1 t2 : Activity)
    (h1 : dbp.activities.find? (fun a => a.id == evp.task_id) = some t1)
    (h2 : t1.status ≠ ActivityStatus.PCC_REQUIRED)
    (h3 : dbf.activities.find? (fun a => a.id == evf.task_id) = some t2)
    (h4 : t2.status ≠ ActivityStatus.INSPECTION_PENDING) :
    confirm_pcc evp nowp dbp =
      .error ⟨400, "Cannot confirm PCC from state: " ++ t1.status.str⟩ ∧
    inspect_fvs evf nowf dbf =
      .error ⟨400, "Cannot inspect FVS from state: " ++ t2.status.str⟩ :=
  ⟨confirm_pcc_eq_of_bad_state evp nowp dbp t1 h1 h2,
   inspect_fvs_eq_of_bad_state evf nowf dbf t2 h3 h4⟩

/-- C4 witness: both handlers on the seeded `READY` Activity. -/
theorem c4_precondition_violation_400_witness :
    confirm_pcc evR 7 db0 =
      .error ⟨400, "Cannot confirm PCC from state: " ++ taskR.status.str⟩ ∧
    inspect_fvs evFR 7 db0 =
      .error ⟨400, "Cannot inspect FVS from state: " ++ taskR.status.str⟩ :=
  c4_precondition_violation_400 evR evFR 7 7 db0 db0 taskR taskR rfl
    (by decide) rfl (by decide)

/-- C5: a request naming a task id with no Activity yields HTTP 404 and, the
error carrying no new snapshot, no state change. -/
theorem c5_not_found_404 (evp : EventPCCCreate) (evf : EventFVSCreate)
    (now : Nat) (db : DB)
    (h1 : db.activities.find? (fun a => a.id == evp.task_id) = none)
    (h2 : db.activities.find? (fun a => a.id == evf.task_id) = none) :
    confirm_pcc evp now db = .error ⟨404, "Task not found"⟩ ∧
    inspect_fvs evf now db = .error ⟨404, "Task not found"⟩ :=
  ⟨confirm_pcc_eq_of_not_found evp now db h1,
   inspect_fvs_eq_of_not_found evf now db h2⟩

/-- C5 witness: both handlers on a task id (99) absent from the seeded
snapshot. -/
theorem c5_not_found_404_witness :
    confirm_pcc { obra_id := 10, atividade_id := 1, equipe_id := 4,
                  task_id := 99 } 7 db0 =
      .error ⟨404, "Task not found"⟩ ∧
    inspect_fvs { obra_id := 10, service_id := 6, task_id := 99,
                  status := FVSStatus.PASS, observations := none } 7 db0 =
      .error ⟨404, "Task not found"⟩ :=
  c5_not_found_404 _ _ 7 db0 rfl rfl

/-- `mentions msg s`: the error message `msg` names the state `s`, i.e. the
state's rendering occurs verbatim inside the message. -/
def mentions (msg : String) (s : ActivityStatus) : Prop :=
  List.IsInfix s.str.data msg.data

/-- C6 counterexample: `confirm_pcc` on the seeded `READY` Activity answers
400 with a message that does not name the required state `PCC_REQUIRED`,
refuting the claim that every 400 message names both the current and the
required state. -/
theorem c6_counterexample_message_lacks_required_state :
    confirm_pcc evR 0 db0 =
      .error ⟨400, "Cannot confirm PCC from state: READY"⟩ ∧
    ¬ mentions "Cannot confirm PCC from state: READY"
        ActivityStatus.PCC_REQUIRED := by
  constructor
  · rfl
  · unfold mentions
    decide

/-- C6 (amended): every HTTP 400 precondition-violation response from
`confirm_pcc` or `inspect_fvs` carries a message naming the Activity's
current state (the required state appears only implicitly, through the
event kind named in the fixed prefix). -/
theorem c6_error_names_current_state (evp : EventPCCCreate)
    (evf : EventFVSCreate) (nowp nowf : Nat) (dbp dbf : DB)
    (t1 t2 : Activity)
    (h1 : dbp.activities.find? (fun a => a.id == evp.task_id) = some t1)
    (h2 : t1.status ≠ ActivityStatus.PCC_REQUIRED)
    (h3 : dbf.activities.find? (fun a => a.id == evf.task_id) = some t2)
    (h4 : t2.status ≠ ActivityStatus.INSPECTION_PENDING) :
    (∃ e, confirm_pcc evp nowp dbp = .error e ∧ e.status_code = 400 ∧
      mentions e.detail t1.status) ∧
    (∃ e, inspect_fvs evf nowf dbf = .error e ∧ e.status_code = 400 ∧
      mentions e.detail t2.status) := by
  refine ⟨⟨_, confirm_pcc_eq_of_bad_state evp nowp dbp t1 h1 h2, rfl, ?_⟩,
          ⟨_, inspect_fvs_eq_of_bad_state evf nowf dbf t2 h3 h4, rfl, ?_⟩⟩
  · exact List.IsSuffix.isInfix (List.suffix_append _ _)
  · exact List.IsSuffix.isInfix (List.suffix_append _ _)

/-- C6 witness: the amended property evaluated on the seeded `READY`
Activity. -/
theorem c6_error_names_current_state_witness :
    (∃ e, confirm_pcc evR 7 db0 = .error e ∧ e.status_code = 400 ∧
      mentions e.detail taskR.status) ∧
    (∃ e, inspect_fvs evFR 7 db0 = .error e ∧ e.status_code = 400 ∧
      mentions e.detail taskR.status) :=
  c6_error_names_current_state evR evFR 7 7 db0 db0 taskR taskR rfl
    (by decide) rfl (by decide)

/-- `taskP` after `confirm_pcc evP 5 db0`. -/
def taskP1 : Activity :=
  { taskP with status := ActivityStatus.PCC_CONFIRMED, updated_at := 5 }

/-- The snapshot `confirm_pcc evP 5 db0` commits. -/
def dbP1 : DB :=
  { activities := [taskP1, taskI, taskR],
    pcc_events := [pccRecord evP 5], fvs_events := [], nc_events := [],
    fvs_seq := 0 }

/-- The response body `confirm_pcc evP 5 db0` returns. -/
def rP1 : ConfirmPCCResponse :=
  { success := true, pcc_event := pccRecord evP 5,
    new_status := "PCC_CONFIRMED" }

/-- C7: `confirm_pcc` is not idempotent: after one success the Activity is
in `PCC_CONFIRMED`, so a second call on it fails with HTTP 400 (no second
`EventPCC` row: the error path commits nothing). -/
theorem c7_confirm_pcc_not_idempotent (ev : EventPCCCreate)
    (now now2 : Nat) (db db1 : DB) (r : ConfirmPCCResponse)
    (h : confirm_pcc ev now db = .ok (db1, r)) :
    confirm_pcc ev now2 db1 =
      .error ⟨400, "Cannot confirm PCC from state: " ++
        ActivityStatus.PCC_CONFIRMED.str⟩ := by
  obtain ⟨task, hfind, hst, hdb, hr⟩ :=
    confirm_pcc_ok_inv ev now db db1 r h
  have hact : db1.activities = updateFirst (fun a => a.id == ev.task_id)
      (fun a => { a with status := ActivityStatus.PCC_CONFIRMED,
                         updated_at := now }) db.activities := by
    rw [hdb]
  have hf2 := find?_updateFirst (fun a => a.id == ev.task_id)
    (fun a => { a with status := ActivityStatus.PCC_CONFIRMED,
                       updated_at := now })
    db.activities task (by simpa using List.find?_some hfind) hfind
  rw [← hact] at hf2
  exact confirm_pcc_eq_of_bad_state ev now2 db1 _ hf2 (by simp)

/-- C7 witness: the second `confirm_pcc` on the snapshot committed by the
first one. -/
theorem c7_confirm_pcc_not_idempotent_witness :
    confirm_pcc evP 9 dbP1 =
      .error ⟨400, "Cannot confirm PCC from state: " ++
        ActivityStatus.PCC_CONFIRMED.str⟩ :=
  c7_confirm_pcc_not_idempotent evP 5 9 db0 dbP1 rP1
    ((confirm_pcc_eq_of_found evP 5 db0 taskP rfl rfl).trans rfl)

/-- The per-row frame property of a successful transition aimed at task id
`tid`: the row keeps its identity fields (`id`, `work_id`, `name`,
`responsible_user`, `created_at`) — only `status` and `updated_at` may
move — and a row whose id is not `tid` is wholly unchanged. -/
def activityFrame (a a' : Activity) (tid : Nat) : Prop :=
  a'.id = a.id ∧ a'.work_id = a.work_id ∧ a'.name = a.name ∧
  a'.responsible_user = a.responsible_user ∧
  a'.created_at = a.created_at ∧
  ((a.id == tid) = false → a' = a)

theorem updateFirst_activityFrame (tid : Nat) (st : ActivityStatus)
    (n : Nat) (l : List Activity) (i : Nat) (h : i < l.length)
    (h' : i < (updateFirst (fun a => a.id == tid)
      (fun a => { a with status := st, updated_at := n }) l).length) :
    activityFrame l[i]
      ((updateFirst (fun a => a.id == tid)
        (fun a => { a with status := st, updated_at := n }) l)[i]) tid := by
  rcases updateFirst_getElem (fun a => a.id == tid)
      (fun a => { a with status := st, updated_at := n }) l i h h' with
    heq | ⟨heq, hp⟩
  · rw [heq]
    exact ⟨rfl, rfl, rfl, rfl, rfl, fun _ => rfl⟩
  · rw [heq]
    refine ⟨rfl, rfl, rfl, rfl, rfl, ?_⟩
    intro hfalse
    simp only at hp
    rw [hfalse] at hp
    cases hp

/-- C8: a successful handler call changes only the target Activity's
`status` and `updated_at`, leaves every other Activity untouched, appends
its event rows at the end of their tables (previously created PCC, FVS and
NC rows are unchanged), and touches no other table. -/
theorem c8_frame_effect (evp : EventPCCCreate) (evf : EventFVSCreate)
    (nowp nowf : Nat) (dbp dbf dbp' dbf' : DB) (rp : ConfirmPCCResponse)
    (rf : InspectFVSResponse)
    (h1 : confirm_pcc evp nowp dbp = .ok (dbp', rp))
    (h2 : inspect_fvs evf nowf dbf = .ok (dbf', rf)) :
    ((∃ e, dbp'.pcc_events = dbp.pcc_events ++ [e]) ∧
     dbp'.fvs_events = dbp.fvs_events ∧
     dbp'.nc_events = dbp.nc_events ∧
     dbp'.activities.length = dbp.activities.length ∧
     ∀ i (h : i < dbp.activities.length)
       (h' : i < dbp'.activities.length),
       activityFrame dbp.activities[i] dbp'.activities[i] evp.task_id) ∧
    ((∃ e, dbf'.fvs_events = dbf.fvs_events ++ [e]) ∧
     (∃ ncs, dbf'.nc_events = dbf.nc_events ++ ncs) ∧
     dbf'.pcc_events = dbf.pcc_events ∧
     dbf'.activities.length = dbf.activities.length ∧
     ∀ i (h : i < dbf.activities.length)
       (h' : i < dbf'.activities.length),
       activityFrame dbf.activities[i] dbf'.activities[i] evf.task_id) := by
  obtain ⟨t1, -, -, hdb1, -⟩ := confirm_pcc_ok_inv evp nowp dbp dbp' rp h1
  obtain ⟨t2, -, -, hdb2, -⟩ := inspect_fvs_ok_inv evf nowf dbf dbf' rf h2
  subst hdb1
  subst hdb2
  refine ⟨⟨⟨pccRecord evp nowp, rfl⟩, rfl, rfl,
      updateFirst_length _ _ _, ?_⟩,
    ⟨fvsRecord evf nowf dbf.fvs_seq, rfl⟩, ⟨_, rfl⟩, rfl,
      updateFirst_length _ _ _, ?_⟩
  · intro i h h'
    exact updateFirst_activityFrame evp.task_id
      ActivityStatus.PCC_CONFIRMED nowp dbp.activities i h h'
  · intro i h h'
    exact updateFirst_activityFrame evf.task_id
      (if evf.status = FVSStatus.PASS then ActivityStatus.INSPECTED_PASS
       else ActivityStatus.INSPECTED_FAIL) nowf dbf.activities i h h'

/-- `taskI` after `inspect_fvs evPass 6 db0`. -/
def taskI1 : Activity :=
  { taskI with status := ActivityStatus.INSPECTED_PASS, updated_at := 6 }

/-- The snapshot `inspect_fvs evPass 6 db0` commits. -/
def dbPass1 : DB :=
  { activities := [taskP, taskI1, taskR],
    pcc_events := [], fvs_events := [fvsRecord evPass 6 0],
    nc_events := [], fvs_seq := 1 }

/-- The response body `inspect_fvs evPass 6 db0` returns. -/
def rPass1 : InspectFVSResponse :=
  { success := true, fvs_event := fvsRecord evPass 6 0, nc_event := none,
    new_status := "INSPECTED_PASS" }

/-- C8 witness: the frame property evaluated on the seeded snapshot, for a
PCC confirmation and a passing inspection. -/
theorem c8_frame_effect_witness :
    ((∃ e, dbP1.pcc_events = db0.pcc_events ++ [e]) ∧
     dbP1.fvs_events = db0.fvs_events ∧
     dbP1.nc_events = db0.nc_events ∧
     dbP1.activities.length = db0.activities.length ∧
     ∀ i (h : i < db0.activities.length)
       (h' : i < dbP1.activities.length),
       activityFrame db0.activities[i] dbP1.activities[i] evP.task_id) ∧
    ((∃ e, dbPass1.fvs_events = db0.fvs_events ++ [e]) ∧
     (∃ ncs, dbPass1.nc_events = db0.nc_events ++ ncs) ∧
     dbPass1.pcc_events = db0.pcc_events ∧
     dbPass1.activities.length = db0.activities.length ∧
     ∀ i (h : i < db0.activities.length)
       (h' : i < dbPass1.activities.length),
       activityFrame db0.activities[i] dbPass1.activities[i]
         evPass.task_id) :=
  c8_frame_effect evP evPass 5 6 db0 db0 dbP1 dbPass1 rP1 rPass1
    ((confirm_pcc_eq_of_found evP 5 db0 taskP rfl rfl).trans rfl)
    ((inspect_fvs_eq_of_found evPass 6 db0 taskI rfl rfl).trans rfl)

/-- C9: the `ValueError` branches of the two status helpers are unreachable
from the handlers: each handler answers 400 on the same precondition before
calling its helper, so a handler error is always the 404 or the 400 — never
the 500 that an escaping `ValueError` would produce. -/
theorem c9_value_error_unreachable (evp : EventPCCCreate)
    (evf : EventFVSCreate) (now : Nat) (db : DB) :
    (∀ e, confirm_pcc evp now db = .error e →
      e.status_code = 404 ∨ e.status_code = 400) ∧
    (∀ e, inspect_fvs evf now db = .error e →
      e.status_code = 404 ∨ e.status_code = 400) := by
  constructor
  · intro e he
    unfold confirm_pcc at he
    split at he
    · injection he with he
      rw [← he]
      exact Or.inl rfl
    · rename_i task hf
      split at he
      · injection he with he
        rw [← he]
        exact Or.inr rfl
      · rename_i hs'
        rw [not_not.mp hs'] at he
        simp [get_next_status_after_pcc] at he
  · intro e he
    unfold inspect_fvs at he
    split at he
    · injection he with he
      rw [← he]
      exact Or.inl rfl
    · rename_i task hf
      split at he
      · injection he with he
        rw [← he]
        exact Or.inr rfl
      · rename_i hs'
        rw [not_not.mp hs'] at he
        simp [get_next_status_after_fvs] at he

/-- C10: the event rows a successful handler call creates always record
`executor_id = 1`, a hard-coded constant: the property holds for every
payload and the handlers receive no user identity at all. -/
theorem c10_executor_id_hard_coded (evp : EventPCCCreate)
    (evf : EventFVSCreate) (nowp nowf : Nat) (dbp dbf dbp' dbf' : DB)
    (rp : ConfirmPCCResponse) (rf : InspectFVSResponse)
    (h1 : confirm_pcc evp nowp dbp = .ok (dbp', rp))
    (h2 : inspect_fvs evf nowf dbf = .ok (dbf', rf)) :
    rp.pcc_event.executor_id = 1 ∧
    dbp'.pcc_events = dbp.pcc_events ++ [rp.pcc_event] ∧
    rf.fvs_event.executor_id = 1 ∧
    dbf'.fvs_events = dbf.fvs_events ++ [rf.fvs_event] := by
  obtain ⟨t1, -, -, hdb1, hr1⟩ := confirm_pcc_ok_inv evp nowp dbp dbp' rp h1
  obtain ⟨t2, -, -, hdb2, hr2⟩ := inspect_fvs_ok_inv evf nowf dbf dbf' rf h2
  subst hdb1
  subst hdb2
  subst hr1
  subst hr2
  exact ⟨rfl, rfl, rfl, rfl⟩

/-- C10 witness: the hard-coded executor evaluated on the seeded
snapshot. -/
theorem c10_executor_id_hard_coded_witness :
    rP1.pcc_event.executor_id = 1 ∧
    dbP1.pcc_events = db0.pcc_events ++ [rP1.pcc_event] ∧
    rPass1.fvs_event.executor_id = 1 ∧
    dbPass1.fvs_events = db0.fvs_events ++ [rPass1.fvs_event] :=
  c10_executor_id_hard_coded evP evPass 5 6 db0 db0 dbP1 dbPass1 rP1 rPass1
    ((confirm_pcc_eq_of_found evP 5 db0 taskP rfl rfl).trans rfl)
    ((inspect_fvs_eq_of_found evPass 6 db0 taskI rfl rfl).trans rfl)

end Obrax
